import Mathlib

/-!
Verification of the Viljoen Beverages ETL pipeline (`src/main.py`,
`src/utils/processors.py`, `src/utils.py`).

Shallow embedding conventions:

* Calendar dates are represented by their rata-die day number (an `Int`,
  day 0 = 1970-01-01), which is order-isomorphic to Python `datetime.date`;
  `timedelta(days = n)` subtraction is integer subtraction and the `.month`
  attribute is recovered with the standard civil-from-days algorithm
  (`civilFromDays`).  Pandas timestamps are modelled after the `.date()`
  truncation that `validate_dates` performs.
* The `Date` column of a dataframe is modelled by the result of the tolerant
  parse `pd.to_datetime(..., errors = "coerce")`: `Option Int`, with `none`
  standing for `NaT`.  The remaining columns of a row are opaque
  (`Row.rest : String`); they are carried into the serialized CSV unchanged.
* The staging output directory is a finite map from file names to file bytes
  (`FS`, an association list).  `load_to_local` is embedded as a pure function
  from the directory state to the directory state plus an
  `Except`-style result; a Python exception is `Except.error`.
* Remote effects (SSH/SFTP) are modelled by their observable inputs/outputs:
  `run_import` consumes the results that the remote session returns for the
  k-th executed command, `upload_to_server` consumes the branch-deciding
  observations of its environment.
-/

namespace ETL

/-! ## Calendar (rata-die ↔ civil), Howard Hinnant's algorithms -/

/-- Civil (year, month, day) of a rata-die day number (day 0 = 1970-01-01).
This is the standard `civil_from_days` algorithm; it recovers the `.month`
and `.day` attributes of a Python `datetime.date`. -/
def civilFromDays (z0 : Int) : Int × Int × Int :=
  let z := z0 + 719468
  let era := Int.fdiv z 146097
  let doe := z - era * 146097
  let yoe := Int.fdiv (doe - Int.fdiv doe 1460 + Int.fdiv doe 36524 - Int.fdiv doe 146096) 365
  let y := yoe + era * 400
  let doy := doe - (365 * yoe + Int.fdiv yoe 4 - Int.fdiv yoe 100)
  let mp := Int.fdiv (5 * doy + 2) 153
  let d := doy - Int.fdiv (153 * mp + 2) 5 + 1
  let m := mp + (if mp < 10 then 3 else -9)
  (if m ≤ 2 then y + 1 else y, m, d)

/-- Rata-die day number of a civil (year, month, day); inverse of
`civilFromDays`.  Used to build concrete dates in witnesses. -/
def daysFromCivil (y m d : Int) : Int :=
  let y1 := if m ≤ 2 then y - 1 else y
  let era := Int.fdiv y1 400
  let yoe := y1 - era * 400
  let doy := Int.fdiv (153 * (m + (if 2 < m then -3 else 9)) + 2) 5 + d - 1
  let doe := yoe * 365 + Int.fdiv yoe 4 - Int.fdiv yoe 100 + doy
  era * 146097 + doe - 719468

/-- The `.month` attribute of the date with rata-die number `z`. -/
def monthOf (z : Int) : Int := (civilFromDays z).2.1

/-! ## Date string rendering (`strftime`) -/

/-- Format field `%m` / `%d`: zero-padded two-digit field. -/
def pad2 (n : Int) : String := if n < 10 then "0" ++ toString n.toNat else toString n.toNat

/-- Format field `%Y`: zero-padded four-digit year. -/
def pad4 (n : Int) : String :=
  if n < 10 then "000" ++ toString n.toNat
  else if n < 100 then "00" ++ toString n.toNat
  else if n < 1000 then "0" ++ toString n.toNat
  else toString n.toNat

/-- The `strftime("%Y-%m-%d")` rendering of the date with rata-die number `z` — the ISO
rendering used by `load_to_local` (src/main.py lines 357-368) and by the
`transform_data` copy in src/utils/processors.py line 483. -/
def formatISO (z : Int) : String :=
  pad4 (civilFromDays z).1 ++ "-" ++ pad2 (civilFromDays z).2.1 ++ "-" ++ pad2 (civilFromDays z).2.2

/-- The `strftime("%Y-%d-%m")` rendering of the date with rata-die number `z` — the format
string actually written in src/main.py line 270 (`transform_data`): year, then
DAY, then MONTH. -/
def formatYDM (z : Int) : String :=
  pad4 (civilFromDays z).1 ++ "-" ++ pad2 (civilFromDays z).2.2 ++ "-" ++ pad2 (civilFromDays z).2.1

/-- The `Date` reformatting step of `transform_data` in src/main.py line 270:
`pd.to_datetime(df1['Date'], errors="coerce").dt.strftime("%Y-%d-%m")`.
The argument is the tolerant-parse result of the incoming value (`none` =
unparseable = `NaT`); `NaT.strftime` propagates the null marker. -/
def transform_date (parsed : Option Int) : Option String := parsed.map formatYDM

/-- The `Date` reformatting step of the duplicate `transform_data` in
src/utils/processors.py line 483:
`pd.to_datetime(df1['Date'], errors="coerce").dt.strftime("%Y-%m-%d")`. -/
def transform_date_iso (parsed : Option Int) : Option String := parsed.map formatISO

/-! ## `validate_dates` (src/utils/processors.py lines 334-371) -/

/-- Failure kinds of the staging stage, named as in the specification.
The Python code raises `ValueError` at three distinct sites:
all-`NaT` date column (src/main.py line 346), date range outside the lookback
window (processors.py line 357), and stale month (processors.py line 368). -/
inductive LoadError
  | allDatesUnparseable
  | dateRangeOutOfWindow
  | staleMonth
deriving DecidableEq, Repr

/-- Python `prev_month = 12 if cur_month == 1 else cur_month - 1`
(src/utils/processors.py line 364). -/
def prevMonth (m : Int) : Int := if m = 1 then 12 else m - 1

/-- Function `validate_dates(min_date, max_date, today, lookback_days)`
(src/utils/processors.py lines 334-371).  Dates are rata-die numbers, so
`today - timedelta(days=lookback_days)` is `today - lookback_days` and the
chained comparison `window_start <= d <= today_d` is the conjunction of the
two integer comparisons.  A raised `ValueError` is `Except.error`. -/
def validate_dates (min_date max_date today lookback_days : Int) : Except LoadError Unit :=
  if ¬ (today - lookback_days ≤ min_date ∧ min_date ≤ today ∧
        today - lookback_days ≤ max_date ∧ max_date ≤ today) then
    Except.error LoadError.dateRangeOutOfWindow
  else if ¬ (monthOf max_date = monthOf today ∨ monthOf max_date = prevMonth (monthOf today)) then
    Except.error LoadError.staleMonth
  else
    Except.ok ()

/-! ## Data model for `load_to_local` -/

/-- One row of the canonical table, as seen by `load_to_local`: the tolerant
parse result of its `Date` value (`none` = `NaT`) plus the remaining columns,
opaque. -/
structure Row where
  date : Option Int
  rest : String
deriving DecidableEq, Repr

/-- The canonical table: an ordered sequence of rows. -/
abbrev Table := List Row

/-- The staging output directory: file name ↦ file bytes. -/
abbrev FS := List (String × String)

/-- The parsed (non-`NaT`) dates of the table's `Date` column, in row order —
`data["Date"].dropna()` after `pd.to_datetime(..., errors="coerce")`. -/
def parsedDates (df : Table) : List Int := df.filterMap (fun r => r.date)

/-- The keyword options of `load_to_local` (src/main.py lines 279-284).
`restrict_delete` models `restrict_delete_to_prefix`. -/
structure LoadOpts where
  create_dir_if_missing : Bool
  delete_existing_csvs : Bool
  restrict_delete : Option String
deriving DecidableEq, Repr

/-- The default options: `create_dir_if_missing=True`,
`delete_existing_csvs=True`, no deletion restriction. -/
def defaultOpts : LoadOpts := ⟨true, true, none⟩

/-- The default options with the pre-save cleanup turned off
(`delete_existing_csvs=False`). -/
def noDeleteOpts : LoadOpts := ⟨true, false, none⟩

/-- Whether `name` matches the deletion glob of `load_to_local`:
`"*.csv"` when no restriction is given, `f"{restrict}*.csv"` otherwise
(src/main.py lines 320-323). -/
def csvMatch (restrict : Option String) (name : String) : Bool :=
  match restrict with
  | none => ".csv".data.isSuffixOf name.data
  | some r => r.data.isPrefixOf name.data && ".csv".data.isSuffixOf (name.data.drop r.data.length)

/-- The pre-save cleanup of `load_to_local` (src/main.py lines 314-335):
when `delete_existing_csvs` is set, unlink every file of the output directory
matching the deletion glob. -/
def purgeCsvs (opts : LoadOpts) (fs : FS) : FS :=
  if opts.delete_existing_csvs then fs.filter (fun e => !csvMatch opts.restrict_delete e.1) else fs

/-- The deterministic staging file name
`f"Viljoenbev_{min_str}_to_{max_str}.csv"` (src/main.py line 359). -/
def stagedName (minD maxD : Int) : String :=
  "Viljoenbev_" ++ formatISO minD ++ "_to_" ++ formatISO maxD ++ ".csv"

/-- One serialized row of `data.to_csv(...)`: the `Date` field after
`data["Date"].dt.strftime("%Y-%m-%d")` (src/main.py line 368; `NaT` serializes
as the empty field), then the opaque remaining columns. -/
def renderRow (r : Row) : String :=
  (match r.date with | some z => formatISO z | none => "") ++ "," ++ r.rest

/-- Newline-joined lines. -/
def joinLines : List String → String
  | [] => ""
  | [x] => x
  | x :: xs => x ++ "\n" ++ joinLines xs

/-- The bytes written by `data.to_csv(full_path, index=False)`
(src/main.py line 369). -/
def renderCSV (df : Table) : String := joinLines (df.map renderRow)

/-- Function `load_to_local(df, ...)` (src/main.py lines 279-371), as a pure function
from the staging-directory state to the new state plus the result.  Execution
order follows the source: resolve the directory, purge matching CSVs, parse
the `Date` column, take its min/max, run `validate_dates(..., lookback_days=3)`,
build the deterministic file name, skip (`written=false`) if it exists, else
write the serialized bytes.  A raised exception is `Except.error`; the state
component is the directory as the function leaves it on that path. -/
def load_to_local (opts : LoadOpts) (fs : FS) (df : Table) (today : Int) :
    FS × Except LoadError (String × Bool) :=
  match parsedDates df with
  | [] => (purgeCsvs opts fs, Except.error LoadError.allDatesUnparseable)
  | d :: ds =>
    match validate_dates (ds.foldl min d) (ds.foldl max d) today 3 with
    | Except.error e => (purgeCsvs opts fs, Except.error e)
    | Except.ok _ =>
      if ((purgeCsvs opts fs).lookup (stagedName (ds.foldl min d) (ds.foldl max d))).isSome then
        (purgeCsvs opts fs, Except.ok (stagedName (ds.foldl min d) (ds.foldl max d), false))
      else
        ((stagedName (ds.foldl min d) (ds.foldl max d), renderCSV df) :: purgeCsvs opts fs,
         Except.ok (stagedName (ds.foldl min d) (ds.foldl max d), true))

/-! ## `get_latest_zip` (src/utils.py lines 179-198, src/utils/processors.py
lines 171-190) -/

/-- Failure kind of archive selection, named as in the specification:
the Python code raises `FileNotFoundError` when no file matches. -/
inductive ArchiveError
  | noMatchingArchive
deriving DecidableEq, Repr

/-- Python `sorted(files, key=os.path.getmtime, reverse=True)[0]`: Python's sort is
stable, so with `reverse=True` the head is the first file (in directory order)
attaining the maximal modification time — a left fold replacing the best
candidate only on a strictly larger mtime. -/
def pickLatest (f : String × Int) (rest : List (String × Int)) : String × Int :=
  rest.foldl (fun best g => if best.2 < g.2 then g else best) f

/-- Function `get_latest_zip(directory, pattern)`: the directory is its listing
(name, mtime) in order, the glob is the predicate `patMatch`.  Filter the
matching files, fail if none, else return the name of the most recently
modified one. -/
def get_latest_zip (files : List (String × Int)) (patMatch : String → Bool) :
    Except ArchiveError String :=
  match files.filter (fun f => patMatch f.1) with
  | [] => Except.error ArchiveError.noMatchingArchive
  | f :: rest => Except.ok (pickLatest f rest).1

/-! ## `run_import` (src/main.py lines 518-611) -/

/-- The captured result of one remote command: decoded stdout, decoded stderr,
and the exit status from `recv_exit_status()`. -/
structure CmdResult where
  stdout : String
  stderr : String
  exit_code : Int
deriving DecidableEq, Repr

/-- Function `run_import(timeout)` (src/main.py lines 518-611).  The remote session is
modelled by the result the server returns for the k-th command executed over
it (`sess k`); the test command is executed first (`sess 0`), the main command
— the second execution — only afterwards (`sess 1`).  The returned pair is the
captured result handed back to the caller together with the number of commands
that were invoked (1 = test only, 2 = test then main).  `timeout` is passed to
`exec_command` and does not influence the branch taken. -/
def run_import (sess : Nat → CmdResult) (timeout : Int) : CmdResult × Nat :=
  if (sess 0).exit_code ≠ 0 then (sess 0, 1) else (sess 1, 2)

/-! ## `parse_perl_output` (src/main.py lines 615-629) -/

/-- Python `str.splitlines()` restricted to `'\n'` separators.  Python additionally
drops a trailing empty line; every use below filters blank lines immediately
afterwards, so the two agree after that filter. -/
def splitLinesAux : List Char → List Char → List String
  | [], acc => [String.mk acc.reverse]
  | '\n' :: cs, acc => String.mk acc.reverse :: splitLinesAux cs []
  | c :: cs, acc => splitLinesAux cs (c :: acc)

/-- Split a string into its lines. -/
def splitLines (s : String) : List String := splitLinesAux s.data []

/-- Whether `line.strip()` is falsy: every character is whitespace. -/
def isBlank (l : String) : Bool := l.data.all (fun c => c.isWhitespace)

/-- ASCII lowering of one character (`str.lower()` on the ASCII range the
classifier keywords live in). -/
def lowerChar (c : Char) : Char :=
  if 'A' ≤ c ∧ c ≤ 'Z' then Char.ofNat (c.toNat + 32) else c

/-- Substring containment on character lists. -/
def listContains : List Char → List Char → Bool
  | [], needle => needle.isEmpty
  | h :: t, needle => needle.isPrefixOf (h :: t) || listContains t needle

/-- Python `needle in line.lower()`: case-insensitive substring containment. -/
def containsCI (l needle : String) : Bool := listContains (l.data.map lowerChar) needle.data

/-- The classification report built by `parse_perl_output`. -/
structure PerlReport where
  working_on : List String
  warnings : List String
  errors : List String
  other_stderr : List String
  exit_code : Int
deriving DecidableEq, Repr

/-- Function `parse_perl_output(stdout, stderr, exit_code)` (src/main.py lines 615-629):
non-blank stdout lines → `working_on`; non-blank stderr lines filtered by
case-insensitive containment of `"warning"` → `warnings` and of `"error"` →
`errors`; stderr lines in neither list (`serr not in warnings + errors`,
membership by string value) → `other_stderr`. -/
def parse_perl_output (stdout stderr : String) (exit_code : Int) : PerlReport :=
  let working_messages := (splitLines stdout).filter (fun l => !isBlank l)
  let stderr_lines := (splitLines stderr).filter (fun l => !isBlank l)
  let warnings := stderr_lines.filter (fun l => containsCI l "warning")
  let errors := stderr_lines.filter (fun l => containsCI l "error")
  let other := stderr_lines.filter (fun l => !(warnings ++ errors).contains l)
  ⟨working_messages, warnings, errors, other, exit_code⟩

/-! ## `upload_to_server` (src/main.py lines 378-491) -/

/-- The branch-deciding observations of one `upload_to_server` call:
the explicit path argument, the glob fallback listing, local file existence
and size, the success of authentication/connection, and the remote size
observed after `sftp.put`. -/
structure UploadEnv where
  csv_file_path : Option String
  staging_matches : List String
  local_exists : String → Bool
  local_size : String → Int
  auth_ok : Bool
  connect_ok : Bool
  put_remote_size : String → Int

/-- Function `upload_to_server(csv_file_path)` (src/main.py lines 378-491), with each
return site of the source preserved: no glob match → `None` (line 416); local
file missing → `None` (line 424); `AuthenticationException` → `None`
(line 485); other connection/SSH failure → `None` (lines 488, 491); size
mismatch after upload → `None` (line 471); successful, size-verified upload →
`None` (line 474). -/
def upload_to_server (env : UploadEnv) : Option String :=
  match env.csv_file_path, env.staging_matches with
  | none, [] => none
  | none, m :: _ =>
    if ¬ env.local_exists m then none
    else if ¬ env.auth_ok then none
    else if ¬ env.connect_ok then none
    else if env.put_remote_size m ≠ env.local_size m then none
    else none
  | some p, _ =>
    if ¬ env.local_exists p then none
    else if ¬ env.auth_ok then none
    else if ¬ env.connect_ok then none
    else if env.put_remote_size p ≠ env.local_size p then none
    else none

/-! ## `master_flow` (src/main.py lines 635-662) -/

/-- The seven pipeline stages named by the specification. -/
inductive StageName
  | download
  | extract
  | transform
  | validate
  | stage
  | upload
  | trigger
deriving DecidableEq, Repr

/-- The invocation sequence of `master_flow` (src/main.py lines 635-662):
the flow body is a straight line of task calls with no conditionals —
`download_data()`, `extract_data()`, `transform_data(...)`,
`validate_data(...)`, `upload_to_server()`, `run_import()` (plus
`parse_perl_output` on the trigger's result).  The `load_to_local(clean_df)`
call — the Staging Writer — is commented out at line 653, so no `stage` entry
occurs, and `run_import()` at line 657 is invoked unconditionally. -/
def master_flow : List StageName :=
  [StageName.download, StageName.extract, StageName.transform, StageName.validate,
   StageName.upload, StageName.trigger]

/-! ## `Price_Ex_Vat` (src/main.py line 254, src/utils/processors.py line 468) -/

/-- Round-half-to-even to an integer (the rounding used by
`round` on a pandas float series), on exact rationals. -/
def roundHalfEven (x : ℚ) : Int :=
  if x - ⌊x⌋ < 1 / 2 then ⌊x⌋
  else if 1 / 2 < x - ⌊x⌋ then ⌊x⌋ + 1
  else if ⌊x⌋ % 2 = 0 then ⌊x⌋ else ⌊x⌋ + 1

/-- Python `round(x, 2)`: round to two decimal places. -/
def round2 (x : ℚ) : ℚ := (roundHalfEven (100 * x) : ℚ) / 100

/-- Formula `Price_Ex_Vat = round(abs(Value / Quantity), 2)` (src/main.py line 254),
with the float arithmetic modelled on exact rationals. -/
def price_ex_vat (value quantity : ℚ) : ℚ := round2 |value / quantity|

/-! ## Concrete fixtures used by witnesses and counterexamples -/

/-- A concrete current date, 2025-10-12. -/
def today0 : Int := daysFromCivil 2025 10 12

/-- A one-row canonical table whose single `Date` equals `today0`; its range
passes the date gate on `today0`. -/
def df0 : Table := [⟨some today0, "r1"⟩]

/-! ## Theorems -/

/-- Claim C2: for every canonical table with at least one parseable `Date`
value, the stage fails with `DateRangeOutOfWindow` exactly when the minimum or
the maximum date falls outside `[today - 3, today]`, fails with `StaleMonth`
exactly when the window check passes but the maximum date's month is neither
the current month nor the immediately preceding one (December wrapping to
January via `prevMonth`), passes exactly when both checks hold, and on either
failure `load_to_local` aborts with that error and its resulting directory
contains no CSV file — nothing was written. -/
theorem C2_date_gate (today minD maxD : Int) :
    (validate_dates minD maxD today 3 = Except.ok () ↔
      ((today - 3 ≤ minD ∧ minD ≤ today ∧ today - 3 ≤ maxD ∧ maxD ≤ today) ∧
       (monthOf maxD = monthOf today ∨ monthOf maxD = prevMonth (monthOf today)))) ∧
    (validate_dates minD maxD today 3 = Except.error LoadError.dateRangeOutOfWindow ↔
      ¬ (today - 3 ≤ minD ∧ minD ≤ today ∧ today - 3 ≤ maxD ∧ maxD ≤ today)) ∧
    (validate_dates minD maxD today 3 = Except.error LoadError.staleMonth ↔
      ((today - 3 ≤ minD ∧ minD ≤ today ∧ today - 3 ≤ maxD ∧ maxD ≤ today) ∧
       ¬ (monthOf maxD = monthOf today ∨ monthOf maxD = prevMonth (monthOf today)))) ∧
    (∀ (fs : FS) (df : Table) (e : LoadError) (d : Int) (ds : List Int),
      parsedDates df = d :: ds →
      validate_dates (ds.foldl min d) (ds.foldl max d) today 3 = Except.error e →
      (load_to_local defaultOpts fs df today).2 = Except.error e ∧
      ∀ q ∈ (load_to_local defaultOpts fs df today).1,
        ".csv".data.isSuffixOf q.1.data = false) := by
  have hsm : (Except.error LoadError.staleMonth : Except LoadError Unit) ≠
      Except.error LoadError.dateRangeOutOfWindow := by simp
  have hds : (Except.error LoadError.dateRangeOutOfWindow : Except LoadError Unit) ≠
      Except.error LoadError.staleMonth := by simp
  refine ⟨?_, ?_, ?_, ?_⟩
  · unfold validate_dates
    by_cases h1 : (today - 3 ≤ minD ∧ minD ≤ today ∧ today - 3 ≤ maxD ∧ maxD ≤ today)
    · rw [if_neg (not_not_intro h1)]
      by_cases h2 : (monthOf maxD = monthOf today ∨ monthOf maxD = prevMonth (monthOf today))
      · rw [if_neg (not_not_intro h2)]
        exact iff_of_true rfl ⟨h1, h2⟩
      · rw [if_pos h2]
        exact iff_of_false (by simp) (fun h => h2 h.2)
    · rw [if_pos h1]
      exact iff_of_false (by simp) (fun h => h1 h.1)
  · unfold validate_dates
    by_cases h1 : (today - 3 ≤ minD ∧ minD ≤ today ∧ today - 3 ≤ maxD ∧ maxD ≤ today)
    · rw [if_neg (not_not_intro h1)]
      by_cases h2 : (monthOf maxD = monthOf today ∨ monthOf maxD = prevMonth (monthOf today))
      · rw [if_neg (not_not_intro h2)]
        exact iff_of_false (by simp) (not_not_intro h1)
      · rw [if_pos h2]
        exact iff_of_false hsm (not_not_intro h1)
    · rw [if_pos h1]
      exact iff_of_true rfl h1
  · unfold validate_dates
    by_cases h1 : (today - 3 ≤ minD ∧ minD ≤ today ∧ today - 3 ≤ maxD ∧ maxD ≤ today)
    · rw [if_neg (not_not_intro h1)]
      by_cases h2 : (monthOf maxD = monthOf today ∨ monthOf maxD = prevMonth (monthOf today))
      · rw [if_neg (not_not_intro h2)]
        exact iff_of_false (by simp) (fun h => h.2 h2)
      · rw [if_pos h2]
        exact iff_of_true rfl ⟨h1, h2⟩
    · rw [if_pos h1]
      exact iff_of_false hds (fun h => h1 h.1)
  · intro fs df e d ds hp hv
    constructor
    · simp [load_to_local, hp, hv]
    · intro q hq
      simp only [load_to_local, hp, hv] at hq
      have hq2 : q ∈ fs.filter (fun r => !csvMatch none r.1) := by
        simpa [purgeCsvs, defaultOpts] using hq
      have h2 := (List.mem_filter.1 hq2).2
      simpa [csvMatch] using h2

/-- Claim C2, witness: on 2025-10-12, a table whose only date is day 0
(1970-01-01) is outside the lookback window, so the stage aborts with
`DateRangeOutOfWindow` and leaves no CSV behind. -/
theorem C2_date_gate_witness :
    (load_to_local defaultOpts [("stale.csv", "y")] [⟨some 0, "r"⟩] today0).2 =
        Except.error LoadError.dateRangeOutOfWindow ∧
    ∀ q ∈ (load_to_local defaultOpts [("stale.csv", "y")] [⟨some 0, "r"⟩] today0).1,
      ".csv".data.isSuffixOf q.1.data = false :=
  (C2_date_gate today0 0 0).2.2.2 [("stale.csv", "y")] [⟨some 0, "r"⟩]
    LoadError.dateRangeOutOfWindow 0 [] rfl rfl

/-- Claim C9: with the default options, `load_to_local` purges every `*.csv`
file of the output directory before the date gate runs, so on any failure the
call leaves the directory equal to its fully purged state — already emptied of
CSVs, not unchanged.  The stage is not atomic on error. -/
theorem C9_purge_before_gate :
    ∀ (fs : FS) (df : Table) (today : Int) (e : LoadError),
      (load_to_local defaultOpts fs df today).2 = Except.error e →
      (load_to_local defaultOpts fs df today).1 =
          fs.filter (fun q => !".csv".data.isSuffixOf q.1.data) ∧
      ∀ q ∈ (load_to_local defaultOpts fs df today).1,
        ".csv".data.isSuffixOf q.1.data = false := by
  intro fs df today e he
  have hpurge : purgeCsvs defaultOpts fs =
      fs.filter (fun q => !".csv".data.isSuffixOf q.1.data) := by
    simp [purgeCsvs, defaultOpts, csvMatch]
  have hmain : (load_to_local defaultOpts fs df today).1 = purgeCsvs defaultOpts fs := by
    cases hp : parsedDates df with
    | nil => simp [load_to_local, hp]
    | cons d ds =>
      cases hv : validate_dates (ds.foldl min d) (ds.foldl max d) today 3 with
      | error e' => simp [load_to_local, hp, hv]
      | ok u =>
        by_cases hl : ((purgeCsvs defaultOpts fs).lookup
            (stagedName (ds.foldl min d) (ds.foldl max d))).isSome
        · simp [load_to_local, hp, hv, hl]
        · exfalso
          simp [load_to_local, hp, hv, hl] at he
  refine ⟨hmain.trans hpurge, ?_⟩
  intro q hq
  rw [hmain, hpurge] at hq
  simpa using (List.mem_filter.1 hq).2

/-- Claim C9, witness: a gate failure on a directory holding `old.csv` leaves
the directory emptied. -/
theorem C9_purge_before_gate_witness :
    (load_to_local defaultOpts [("old.csv", "x")] [⟨some 0, "r"⟩] today0).1 =
        [("old.csv", "x")].filter (fun q => !".csv".data.isSuffixOf q.1.data) ∧
    ∀ q ∈ (load_to_local defaultOpts [("old.csv", "x")] [⟨some 0, "r"⟩] today0).1,
      ".csv".data.isSuffixOf q.1.data = false :=
  C9_purge_before_gate [("old.csv", "x")] [⟨some 0, "r"⟩] today0
    LoadError.dateRangeOutOfWindow rfl

/-- Claim C1, counterexample: with the default options, both the first and the
second `load_to_local` call on the same gate-passing table report
`written = true` — the default `delete_existing_csvs=True` cleanup unlinks the
file the first call wrote (it matches `*.csv`) before the existence check, so
the second call rewrites it instead of skipping with `written = false`. -/
theorem C1_counterexample :
    (load_to_local defaultOpts [] df0 today0).2 =
        Except.ok ("Viljoenbev_2025-10-12_to_2025-10-12.csv", true) ∧
    (load_to_local defaultOpts (load_to_local defaultOpts [] df0 today0).1 df0 today0).2 =
        Except.ok ("Viljoenbev_2025-10-12_to_2025-10-12.csv", true) :=
  ⟨rfl, rfl⟩

/-- Claim C1 (amended): calling `load_to_local` twice with the same table is
idempotent only when the second call's pre-save cleanup is disabled
(`delete_existing_csvs=False`): then, whenever the first call (with any
options — here the defaults) wrote the file, the second call returns the same
path with `written = false` and returns the directory exactly as the first
call left it, the existing file's bytes untouched. -/
theorem C1_idempotent_skip :
    ∀ (fs : FS) (df : Table) (today : Int) (p : String),
      (load_to_local defaultOpts fs df today).2 = Except.ok (p, true) →
      load_to_local noDeleteOpts (load_to_local defaultOpts fs df today).1 df today =
        ((load_to_local defaultOpts fs df today).1, Except.ok (p, false)) := by
  intro fs df today p h
  cases hp : parsedDates df with
  | nil => simp [load_to_local, hp] at h
  | cons d ds =>
    cases hv : validate_dates (ds.foldl min d) (ds.foldl max d) today 3 with
    | error e => simp [load_to_local, hp, hv] at h
    | ok u =>
      by_cases hl : ((purgeCsvs defaultOpts fs).lookup
          (stagedName (ds.foldl min d) (ds.foldl max d))).isSome
      · simp [load_to_local, hp, hv, hl] at h
      · have hres : load_to_local defaultOpts fs df today =
            ((stagedName (ds.foldl min d) (ds.foldl max d), renderCSV df) ::
              purgeCsvs defaultOpts fs,
             Except.ok (stagedName (ds.foldl min d) (ds.foldl max d), true)) := by
          simp [load_to_local, hp, hv, hl]
        have hpe : p = stagedName (ds.foldl min d) (ds.foldl max d) := by
          rw [hres] at h
          simpa using h.symm
        rw [hres, hpe]
        simp [load_to_local, hp, hv, purgeCsvs, noDeleteOpts, List.lookup]

/-- Claim C1, witness: concretely, with cleanup disabled the second call on
the directory left by a first default-option call skips the save: it reports
`written = false` for the same path and leaves the directory unchanged. -/
theorem C1_idempotent_skip_witness :
    load_to_local noDeleteOpts (load_to_local defaultOpts [] df0 today0).1 df0 today0 =
      ((load_to_local defaultOpts [] df0 today0).1,
       Except.ok ("Viljoenbev_2025-10-12_to_2025-10-12.csv", false)) :=
  C1_idempotent_skip [] df0 today0 "Viljoenbev_2025-10-12_to_2025-10-12.csv" rfl

/-- Claim C3: the `Date` reformatting of `transform_data` in src/main.py
line 270 uses the format string `"%Y-%d-%m"`, not `"%Y-%m-%d"`: on the
parseable date 2025-03-05 it produces `"2025-05-03"` (year-DAY-month), which
differs from the ISO rendering `"2025-03-05"` that the specification, the
duplicate `transform_data` in src/utils/processors.py line 483
(`transform_date_iso`), and the staging serializer all use.  The tolerant-null
half of the claim does hold: an unparseable value stays a null marker. -/
theorem C3_transform_date_format :
    transform_date (some (daysFromCivil 2025 3 5)) = some "2025-05-03" ∧
    transform_date_iso (some (daysFromCivil 2025 3 5)) = some "2025-03-05" ∧
    transform_date (some (daysFromCivil 2025 3 5)) ≠
      transform_date_iso (some (daysFromCivil 2025 3 5)) ∧
    transform_date none = none := by
  refine ⟨rfl, rfl, ?_, rfl⟩
  intro h
  have h2 : ("2025-05-03" : String) = "2025-03-05" := by
    have ha : transform_date (some (daysFromCivil 2025 3 5)) = some "2025-05-03" := rfl
    have hb : transform_date_iso (some (daysFromCivil 2025 3 5)) = some "2025-03-05" := rfl
    rw [ha, hb] at h
    exact Option.some.inj h
  simp at h2

/-- Claim C4: whenever the test command's captured exit status is nonzero,
`run_import` returns exactly the test command's captured stdout, stderr and
exit status, and only one remote command was invoked — the main command never
runs — for every timeout value. -/
theorem C4_test_failure_aborts :
    ∀ (timeout : Int) (sess : Nat → CmdResult),
      (sess 0).exit_code ≠ 0 →
      run_import sess timeout = (sess 0, 1) := by
  intro timeout sess h
  simp [run_import, h]

/-- Claim C4, witness: a session whose test command exits with code 3 yields
that captured result and a single invocation. -/
theorem C4_test_failure_aborts_witness :
    run_import (fun _ => ⟨"out", "err", 3⟩) 120 = (⟨"out", "err", 3⟩, 1) :=
  C4_test_failure_aborts 120 (fun _ => ⟨"out", "err", 3⟩) (by decide)

/-- Claim C5, counterexample: the invocation sequence of `master_flow` is not
the claimed seven-stage order — the Staging Writer (`load_to_local`) is never
invoked (the call is commented out at src/main.py line 653) while the Remote
Trigger (`run_import`) is invoked unconditionally, so the trigger runs in a
flow in which staging produced no new file. -/
theorem C5_counterexample :
    master_flow ≠ [StageName.download, StageName.extract, StageName.transform,
      StageName.validate, StageName.stage, StageName.upload, StageName.trigger] ∧
    StageName.stage ∉ master_flow ∧ StageName.trigger ∈ master_flow := by
  refine ⟨by decide, by decide, by decide⟩

/-- Claim C5 (amended): the pipeline driver executes exactly the six stages
Download → Extract → Transform → Validate → Upload → Trigger in that fixed
order, each exactly once per run; the Stage (staging-writer) step is skipped
and the Remote Trigger runs unconditionally rather than gated on a newly
staged file. -/
theorem C5_stage_order :
    master_flow = [StageName.download, StageName.extract, StageName.transform,
      StageName.validate, StageName.upload, StageName.trigger] ∧
    master_flow.Nodup :=
  ⟨rfl, by decide⟩

/-- Claim C6, counterexample: the stderr buckets of `parse_perl_output` are
not mutually exclusive — the non-blank stderr line `"boot error warning"`
contains both substrings and is placed in `warnings` and in `errors` at
once. -/
theorem C6_counterexample :
    "boot error warning" ∈ (parse_perl_output "" "boot error warning\nplain" 3).warnings ∧
    "boot error warning" ∈ (parse_perl_output "" "boot error warning\nplain" 3).errors :=
  ⟨by decide, by decide⟩

/-- Helper: `List.contains` on strings decides membership. -/
lemma strContains_iff (l : String) (xs : List String) : xs.contains l = true ↔ l ∈ xs := by
  rw [List.contains_eq_any_beq, List.any_eq_true]
  constructor
  · rintro ⟨x, hx, hbeq⟩
    have hxl : l = x := by simpa using hbeq
    rw [hxl]
    exact hx
  · intro h
    exact ⟨l, h, by simp⟩

/-- Helper: `List.contains` on strings refutes membership. -/
lemma strContains_false (l : String) (xs : List String) : xs.contains l = false ↔ l ∉ xs := by
  constructor
  · intro h hmem
    have h2 := (strContains_iff l xs).2 hmem
    rw [h] at h2
    exact Bool.noConfusion h2
  · intro h
    cases hc : xs.contains l with
    | false => rfl
    | true => exact absurd ((strContains_iff l xs).1 hc) h

/-- Helper: membership in the `other_stderr` bucket of the classifier, over an
arbitrary list of non-blank stderr lines. -/
lemma bucket_other_iff (lines : List String) (l : String) :
    l ∈ lines.filter (fun s =>
        !((lines.filter (fun s => containsCI s "warning") ++
           lines.filter (fun s => containsCI s "error")).contains s)) ↔
      l ∈ lines ∧ containsCI l "warning" = false ∧ containsCI l "error" = false := by
  rw [List.mem_filter]
  constructor
  · rintro ⟨hline, hnot⟩
    have hnot' : (lines.filter (fun s => containsCI s "warning") ++
        lines.filter (fun s => containsCI s "error")).contains l = false := by
      cases hc : (lines.filter (fun s => containsCI s "warning") ++
          lines.filter (fun s => containsCI s "error")).contains l with
      | false => rfl
      | true => rw [hc] at hnot; exact Bool.noConfusion hnot
    have hnm := (strContains_false l _).1 hnot'
    rw [List.mem_append] at hnm
    push_neg at hnm
    refine ⟨hline, ?_, ?_⟩
    · cases hcw : containsCI l "warning" with
      | false => rfl
      | true => exact absurd (List.mem_filter.2 ⟨hline, hcw⟩) hnm.1
    · cases hce : containsCI l "error" with
      | false => rfl
      | true => exact absurd (List.mem_filter.2 ⟨hline, hce⟩) hnm.2
  · rintro ⟨hline, hw, he⟩
    refine ⟨hline, ?_⟩
    have hnw : l ∉ lines.filter (fun s => containsCI s "warning") := by
      intro hmem
      have h2 := (List.mem_filter.1 hmem).2
      rw [hw] at h2
      exact Bool.noConfusion h2
    have hne : l ∉ lines.filter (fun s => containsCI s "error") := by
      intro hmem
      have h2 := (List.mem_filter.1 hmem).2
      rw [he] at h2
      exact Bool.noConfusion h2
    have hcf : (lines.filter (fun s => containsCI s "warning") ++
        lines.filter (fun s => containsCI s "error")).contains l = false := by
      rw [strContains_false, List.mem_append]
      rintro (h | h)
      · exact hnw h
      · exact hne h
    rw [hcf]
    rfl

/-- Helper: a line of the `other_stderr` bucket is in neither of the other two
stderr buckets. -/
lemma bucket_other_disjoint (lines : List String) (l : String) :
    l ∈ lines.filter (fun s =>
        !((lines.filter (fun s => containsCI s "warning") ++
           lines.filter (fun s => containsCI s "error")).contains s)) →
      l ∉ lines.filter (fun s => containsCI s "warning") ∧
      l ∉ lines.filter (fun s => containsCI s "error") := by
  intro hother
  obtain ⟨hline, hw, he⟩ := (bucket_other_iff lines l).1 hother
  constructor
  · intro hmem
    have h2 := (List.mem_filter.1 hmem).2
    rw [hw] at h2
    exact Bool.noConfusion h2
  · intro hmem
    have h2 := (List.mem_filter.1 hmem).2
    rw [he] at h2
    exact Bool.noConfusion h2

/-- Claim C6 (amended): `parse_perl_output` puts exactly the non-blank stdout
lines into `working_on` and buckets the non-blank stderr lines by
case-insensitive substring containment — `warnings` holds exactly those
containing `"warning"`, `errors` exactly those containing `"error"`, and
`other_stderr` exactly those containing neither.  `other_stderr` is disjoint
from the other two buckets, but `warnings` and `errors` are not mutually
exclusive: a line containing both substrings appears in both. -/
theorem C6_classification :
    ∀ (out err : String) (c : Int) (l : String),
      (parse_perl_output out err c).working_on =
          (splitLines out).filter (fun s => !isBlank s) ∧
      (l ∈ (parse_perl_output out err c).warnings ↔
        l ∈ (splitLines err).filter (fun s => !isBlank s) ∧ containsCI l "warning" = true) ∧
      (l ∈ (parse_perl_output out err c).errors ↔
        l ∈ (splitLines err).filter (fun s => !isBlank s) ∧ containsCI l "error" = true) ∧
      (l ∈ (parse_perl_output out err c).other_stderr ↔
        l ∈ (splitLines err).filter (fun s => !isBlank s) ∧
          containsCI l "warning" = false ∧ containsCI l "error" = false) ∧
      (l ∈ (parse_perl_output out err c).other_stderr →
        l ∉ (parse_perl_output out err c).warnings ∧
        l ∉ (parse_perl_output out err c).errors) := by
  intro out err c l
  refine ⟨rfl, List.mem_filter, List.mem_filter, ?_, ?_⟩
  · exact bucket_other_iff ((splitLines err).filter (fun s => !isBlank s)) l
  · exact bucket_other_disjoint ((splitLines err).filter (fun s => !isBlank s)) l

/-- Claim C6, witness: the neither-keyword line `"plain"` lands in
`other_stderr` and therefore in neither of the other two buckets. -/
theorem C6_classification_witness :
    "plain" ∉ (parse_perl_output "" "boot warning\nplain" 0).warnings ∧
    "plain" ∉ (parse_perl_output "" "boot warning\nplain" 0).errors :=
  (C6_classification "" "boot warning\nplain" 0 "plain").2.2.2.2 (by decide)

/-- Helper: the rounding underlying `round(x, 2)` maps non-negative inputs to
non-negative integers. -/
lemma roundHalfEven_nonneg (x : ℚ) (hx : 0 ≤ x) : 0 ≤ roundHalfEven x := by
  unfold roundHalfEven
  have h := Int.floor_nonneg.mpr hx
  split_ifs <;> omega

/-- Claim C7: for a non-null, nonzero `Quantity`, the transform sets
`Price_Ex_Vat = round(abs(Value / Quantity), 2)`; in particular the row
`Quantity = 10, Value = -50.0` yields `Price_Ex_Vat = 5.00`, and the derived
price is always non-negative. -/
theorem C7_price_ex_vat :
    price_ex_vat (-50) 10 = 5 ∧
    ∀ v q : ℚ, q ≠ 0 → price_ex_vat v q = round2 |v / q| ∧ 0 ≤ price_ex_vat v q := by
  constructor
  · norm_num [price_ex_vat, round2, roundHalfEven]
  · intro v q hq
    refine ⟨rfl, ?_⟩
    unfold price_ex_vat round2
    have h0 : (0:ℚ) ≤ 100 * |v / q| := by positivity
    have hf := roundHalfEven_nonneg _ h0
    have hc : (0:ℚ) ≤ (roundHalfEven (100 * |v / q|) : ℚ) := by exact_mod_cast hf
    positivity

/-- Claim C7, witness: the claimed row, `Quantity = 10 ≠ 0` and
`Value = -50`. -/
theorem C7_price_ex_vat_witness :
    price_ex_vat (-50) 10 = round2 |(-50 : ℚ) / 10| ∧ 0 ≤ price_ex_vat (-50) (10 : ℚ) :=
  C7_price_ex_vat.2 (-50) 10 (by norm_num)

/-- Helper: the fold selecting the most recently modified file returns an
element of the candidate list. -/
lemma pickLatest_mem (rest : List (String × Int)) :
    ∀ f, pickLatest f rest ∈ f :: rest := by
  induction rest with
  | nil =>
    intro f
    simp [pickLatest]
  | cons g gs ih =>
    intro f
    have h := ih (if f.2 < g.2 then g else f)
    simp only [pickLatest, List.foldl_cons]
    simp only [pickLatest] at h
    rcases List.mem_cons.1 h with h1 | h1
    · rw [h1]
      split_ifs <;> simp
    · exact List.mem_cons_of_mem _ (List.mem_cons_of_mem _ h1)

/-- Helper: the selected file's modification time dominates every
candidate's. -/
lemma pickLatest_le (rest : List (String × Int)) :
    ∀ f, ∀ q ∈ f :: rest, q.2 ≤ (pickLatest f rest).2 := by
  induction rest with
  | nil =>
    intro f q hq
    have hqf : q = f := by simpa using hq
    rw [hqf]
    simp [pickLatest]
  | cons g gs ih =>
    intro f q hq
    simp only [pickLatest, List.foldl_cons]
    have key := ih (if f.2 < g.2 then g else f)
    simp only [pickLatest] at key
    have hfstep : f.2 ≤ (if f.2 < g.2 then g else f).2 := by
      split_ifs with h
      · exact le_of_lt h
      · exact le_rfl
    have hgstep : g.2 ≤ (if f.2 < g.2 then g else f).2 := by
      split_ifs with h
      · exact le_rfl
      · exact le_of_not_lt h
    have hhead := key _ (List.mem_cons_self _ _)
    rcases List.mem_cons.1 hq with h1 | h1
    · rw [h1]
      exact hfstep.trans hhead
    · rcases List.mem_cons.1 h1 with h2 | h2
      · rw [h2]
        exact hgstep.trans hhead
      · exact key q (List.mem_cons_of_mem _ h2)

/-- Claim C8: `get_latest_zip` fails with `NoMatchingArchive` exactly when no
file matches the pattern; otherwise it returns the name of a matching file of
the directory whose modification time is maximal among the matches; and
concretely, with an older `A.zip` and a newer `B.zip` both matching, it
returns `B.zip`. -/
theorem C8_latest_archive :
    ∀ (files : List (String × Int)) (patMatch : String → Bool),
      (get_latest_zip files patMatch = Except.error ArchiveError.noMatchingArchive ↔
        files.filter (fun f => patMatch f.1) = []) ∧
      (∀ p, get_latest_zip files patMatch = Except.ok p →
        ∃ t, (p, t) ∈ files ∧ patMatch p = true ∧
          ∀ q ∈ files.filter (fun f => patMatch f.1), q.2 ≤ t) ∧
      get_latest_zip [("A.zip", 0), ("B.zip", 1)] (fun _ => true) = Except.ok "B.zip" := by
  intro files patMatch
  refine ⟨?_, ?_, rfl⟩
  · cases hf : files.filter (fun f => patMatch f.1) with
    | nil => simp [get_latest_zip, hf]
    | cons f rest => simp [get_latest_zip, hf]
  · intro p hp
    cases hf : files.filter (fun f => patMatch f.1) with
    | nil => simp [get_latest_zip, hf] at hp
    | cons f rest =>
      have hp2 : (pickLatest f rest).1 = p := by
        simpa [get_latest_zip, hf] using hp
      have hmem : pickLatest f rest ∈ files.filter (fun f => patMatch f.1) := by
        rw [hf]
        exact pickLatest_mem rest f
      have hmf := List.mem_filter.1 hmem
      refine ⟨(pickLatest f rest).2, ?_, ?_, ?_⟩
      · rw [← hp2]
        simpa using hmf.1
      · rw [← hp2]
        exact hmf.2
      · intro q hq
        exact pickLatest_le rest f q hq

/-- Claim C8, witness: applied to the directory holding an older `A.zip`
(mtime 0) and a newer `B.zip` (mtime 1), both matching. -/
theorem C8_latest_archive_witness :
    ∃ t, ("B.zip", t) ∈ [("A.zip", (0 : Int)), ("B.zip", 1)] ∧ (fun _ => true) "B.zip" = true ∧
      ∀ q ∈ [("A.zip", (0 : Int)), ("B.zip", 1)].filter (fun f => (fun _ => true) f.1), q.2 ≤ t :=
  (C8_latest_archive [("A.zip", 0), ("B.zip", 1)] (fun _ => true)).2.1 "B.zip" rfl

/-- Claim C10: `upload_to_server` returns `None` on every exit path — the
no-match fallback, the missing local file, the failed authentication or
connection, the post-upload size mismatch, and the successful size-verified
upload alike — so its return value never carries the remote path and cannot
distinguish a successful upload from a failed one. -/
theorem C10_upload_returns_none :
    (∀ env : UploadEnv, upload_to_server env = none) ∧
    ∀ e1 e2 : UploadEnv, upload_to_server e1 = upload_to_server e2 := by
  have h : ∀ env : UploadEnv, upload_to_server env = none := by
    intro env
    obtain ⟨cp, sm, le, ls, ao, co, prs⟩ := env
    cases cp with
    | none =>
      cases sm with
      | nil => rfl
      | cons m ms => simp [upload_to_server, ite_self]
    | some p => simp [upload_to_server, ite_self]
  exact ⟨h, fun e1 e2 => (h e1).trans (h e2).symm⟩

end ETL
